import Mathlib

/-!
Shallow embedding of the danbot trading core (risk admission, position sizing,
order execution, regime state machine, tick features, exchange adapter retry)
with theorems checking the specification's claims against it.

Conventions of the embedding:
* Python `float` values are modelled as exact rationals `ℚ` (the claims under
  study are about branch structure, ordering, clamping and exact arithmetic
  identities, none of which depend on binary rounding).
* Python `int` values are modelled as `ℤ`, sizes/attempt counts as `ℕ`.
* `datetime` instants are modelled as rationals (seconds); `datetime.now()` is
  passed in explicitly as a `now` argument.
* Python dictionaries keyed by symbol are modelled as association lists in
  insertion order with unique keys; `defaultdict` reads use default `0`.
* Fallible calls (`submit_fn`, the REST client) are modelled as
  `Except`-valued functions indexed by the attempt number.
-/

namespace Danbot

/-! ### Association-list helpers (model of Python `dict` in insertion order) -/

def assocGet {κ α : Type} [DecidableEq κ] : List (κ × α) → κ → Option α
  | [], _ => none
  | (k, v) :: t, s => if k = s then some v else assocGet t s

def assocGetD {κ α : Type} [DecidableEq κ] (m : List (κ × α)) (k : κ) (d : α) : α :=
  (assocGet m k).getD d

def assocSet {κ α : Type} [DecidableEq κ] : List (κ × α) → κ → α → List (κ × α)
  | [], k, v => [(k, v)]
  | (k0, v0) :: t, k, v => if k0 = k then (k0, v) :: t else (k0, v0) :: assocSet t k v

def sumValues (m : List (String × ℚ)) : ℚ := (m.map Prod.snd).sum

/-! ### `danbot/strategy/risk.py` : `RiskManager`

One structure mirrors the Python dataclass (configuration fields and mutable
state fields together).  The `_reasons` diagnostic deque is not modelled (it is
write-only logging state never read by any claim's code path). -/

structure RiskManager where
  max_daily_loss_pct : ℚ
  max_positions : ℤ
  max_trade_risk_pct : ℚ
  max_notional_per_trade : ℚ
  cooldown_seconds : ℚ
  max_positions_per_symbol : ℤ := 1
  max_exposure_per_symbol : ℚ := 500
  max_account_exposure : ℚ := 2000
  max_consecutive_losses : ℤ := 4
  loss_cooldown_seconds : ℚ := 90
  include_unrealized_pnl : Bool := true
  loss_today_pct : ℚ := 0
  open_positions : ℤ := 0
  kill_switch : Bool := false
  vol_blocked_until : Option ℚ := none
  consecutive_losses : ℤ := 0
  open_positions_by_symbol : List (String × ℤ) := []
  exposure_by_symbol : List (String × ℚ) := []
  cooldown_until : List (String × ℚ) := []
  deriving DecidableEq

/-- `datetime` truthiness is always `True` in Python, so
`self.vol_blocked_until and now < self.vol_blocked_until` reduces to: the field
is set and `now` is before it. -/
def timeBlockActive (now : ℚ) : Option ℚ → Bool
  | none => false
  | some t => decide (now < t)

def RiskManager.can_trade (r : RiskManager) (now : ℚ) (symbol : String)
    (notional : ℚ) (stale spread_blocked slippage_blocked : Bool) :
    Bool × String :=
  if r.kill_switch then (false, "kill_switch")
  else if stale then (false, "staleness_block")
  else if spread_blocked then (false, "spread_block")
  else if slippage_blocked then (false, "slippage_block")
  else if timeBlockActive now r.vol_blocked_until then (false, "volatility_block")
  else if decide (r.max_daily_loss_pct ≤ r.loss_today_pct) then (false, "daily_loss_circuit_breaker")
  else if decide (r.max_consecutive_losses ≤ r.consecutive_losses) then (false, "consecutive_losses_circuit_breaker")
  else if decide (r.max_positions ≤ r.open_positions) then (false, "max_positions")
  else if decide (r.max_positions_per_symbol ≤ assocGetD r.open_positions_by_symbol symbol 0) then (false, "max_positions_per_symbol")
  else if decide (r.max_exposure_per_symbol < assocGetD r.exposure_by_symbol symbol 0 + notional) then (false, "max_symbol_exposure")
  else if decide (r.max_account_exposure < sumValues r.exposure_by_symbol + notional) then (false, "max_account_exposure")
  else if timeBlockActive now (assocGet r.cooldown_until symbol) then (false, "symbol_cooldown")
  else (true, "ok")

/-- The spec's ordered chain of admission checks, as a list of
(fails?, reason) pairs in the order the spec lists them. -/
def canTradeChecks (r : RiskManager) (now : ℚ) (symbol : String)
    (notional : ℚ) (stale spread_blocked slippage_blocked : Bool) :
    List (Bool × String) :=
  [ (r.kill_switch, "kill_switch"),
    (stale, "staleness_block"),
    (spread_blocked, "spread_block"),
    (slippage_blocked, "slippage_block"),
    (timeBlockActive now r.vol_blocked_until, "volatility_block"),
    (decide (r.max_daily_loss_pct ≤ r.loss_today_pct), "daily_loss_circuit_breaker"),
    (decide (r.max_consecutive_losses ≤ r.consecutive_losses), "consecutive_losses_circuit_breaker"),
    (decide (r.max_positions ≤ r.open_positions), "max_positions"),
    (decide (r.max_positions_per_symbol ≤ assocGetD r.open_positions_by_symbol symbol 0), "max_positions_per_symbol"),
    (decide (r.max_exposure_per_symbol < assocGetD r.exposure_by_symbol symbol 0 + notional), "max_symbol_exposure"),
    (decide (r.max_account_exposure < sumValues r.exposure_by_symbol + notional), "max_account_exposure"),
    (timeBlockActive now (assocGet r.cooldown_until symbol), "symbol_cooldown") ]

/-- First failing check wins; if none fails the result is `(true, "ok")`. -/
def firstDeny (checks : List (Bool × String)) : Bool × String :=
  match checks.find? (fun c => c.1) with
  | some c => (false, c.2)
  | none => (true, "ok")

theorem firstDeny_cons (b : Bool) (s : String) (rest : List (Bool × String)) :
    firstDeny ((b, s) :: rest) = if b then (false, s) else firstDeny rest := by
  cases b <;> simp [firstDeny, List.find?]

theorem firstDeny_nil : firstDeny [] = (true, "ok") := rfl

def RiskManager.apply_trade_open (r : RiskManager) (now : ℚ) (symbol : String)
    (notional : ℚ) : RiskManager :=
  { r with
    open_positions := r.open_positions + 1,
    open_positions_by_symbol :=
      assocSet r.open_positions_by_symbol symbol
        (assocGetD r.open_positions_by_symbol symbol 0 + 1),
    exposure_by_symbol :=
      assocSet r.exposure_by_symbol symbol
        (assocGetD r.exposure_by_symbol symbol 0 + max notional 0),
    cooldown_until := assocSet r.cooldown_until symbol (now + r.cooldown_seconds) }

def RiskManager.apply_trade_close (r : RiskManager) (now : ℚ) (symbol : String)
    (pnl_pct released_notional : ℚ) : RiskManager :=
  let r1 :=
    { r with
      open_positions := max 0 (r.open_positions - 1),
      open_positions_by_symbol :=
        assocSet r.open_positions_by_symbol symbol
          (max 0 (assocGetD r.open_positions_by_symbol symbol 0 - 1)),
      exposure_by_symbol :=
        assocSet r.exposure_by_symbol symbol
          (max 0 (assocGetD r.exposure_by_symbol symbol 0 - max released_notional 0)) }
  if pnl_pct < 0 then
    { r1 with
      consecutive_losses := r1.consecutive_losses + 1,
      cooldown_until := assocSet r1.cooldown_until symbol (now + r.loss_cooldown_seconds) }
  else
    { r1 with consecutive_losses := 0 }

def RiskManager.position_size (r : RiskManager) (equity confidence
    stop_distance_pct size_multiplier : ℚ) : ℚ :=
  let risk_budget := equity * (r.max_trade_risk_pct / 100) * max (min confidence 1) (1/10)
  let size := risk_budget / max (stop_distance_pct / 100) (1/1000000)
  min (size * max (1/5) (min size_multiplier (3/2))) r.max_notional_per_trade

/-- The spec's sizing formula, written exactly from the spec's words:
`equity × (max_trade_risk_pct/100) × clamp(confidence,0.1,1.0) /
(stop_distance_pct/100) × clamp(size_multiplier,0.2,1.5)` capped at
`max_notional_per_trade` — with no floor on the denominator. -/
def specPositionSize (r : RiskManager) (equity confidence
    stop_distance_pct size_multiplier : ℚ) : ℚ :=
  min (equity * (r.max_trade_risk_pct / 100) * max (min confidence 1) (1/10)
        / (stop_distance_pct / 100) * max (1/5) (min size_multiplier (3/2)))
    r.max_notional_per_trade

/-! ### `danbot/strategy/execution.py` : `SlippageModel` -/

structure SlippageModel where
  max_slippage_bps : ℚ
  spread_guard_bps : ℚ
  edge_safety_factor : ℚ
  deriving DecidableEq

/-- Python's `if depth and depth > 0` takes the depth branch only when depth
is present, non-zero (truthy) and positive, i.e. present and `> 0`. -/
def SlippageModel.expected_slippage_bps (m : SlippageModel)
    (order_size spread_bps volatility : ℚ) (depth : Option ℚ) (impact : ℚ) : ℚ :=
  match depth with
  | some d =>
    if 0 < d then spread_bps * (1/2) + (order_size / d) * 10000 + volatility * 10000 * (3/20)
    else spread_bps * (1/2) + impact * order_size * 10000 + volatility * 10000 * (3/20)
  | none => spread_bps * (1/2) + impact * order_size * 10000 + volatility * 10000 * (3/20)

def SlippageModel.validate (m : SlippageModel)
    (expected_bps spread_bps expected_edge_bps : ℚ) : Bool × String :=
  if m.spread_guard_bps < spread_bps then (false, "spread_guard")
  else if m.max_slippage_bps < expected_bps then (false, "slippage_guard")
  else if expected_edge_bps * m.edge_safety_factor < expected_bps then (false, "cost_exceeds_edge")
  else (true, "ok")

/-! ### `danbot/strategy/execution.py` : `ExecutionEngine._quantize`

The Python code converts via `Decimal` and truncates the quotient with
`ROUND_DOWN`, which in `decimal` means rounding **toward zero**.  The `Decimal`
arithmetic on the short decimal literals involved is exact, so the quotient is
modelled as exact rational division and `ROUND_DOWN` as integer truncation
toward zero. -/

/-- `Decimal.quantize(Decimal("1"), rounding=ROUND_DOWN)`: truncation toward
zero. -/
def truncTowardZero (q : ℚ) : ℤ := if 0 ≤ q then ⌊q⌋ else ⌈q⌉

def quantize (value step : ℚ) : ℚ :=
  if step ≤ 0 then value
  else ((truncTowardZero (value / step) : ℚ)) * step

/-! ### `danbot/strategy/state_machine.py` : `ProbabilisticStateMachine`

The confidence dict has the five fixed `MarketState` keys, modelled as a
structure with one field per state (insertion order BUILDUP, IMPULSE, CLIMAX,
EXHAUSTION, REBALANCE).  The source parameter `exhaustion_ratio` is named
`exhaustion_rt` here. -/

structure Confidences where
  buildup : ℚ
  impulse : ℚ
  climax : ℚ
  exhaustion : ℚ
  rebalance : ℚ
  deriving DecidableEq

/-- `{state: (1.0 if state == MarketState.BUILDUP else 0.0) for state in MarketState}` -/
def initialConfidences : Confidences :=
  { buildup := 1, impulse := 0, climax := 0, exhaustion := 0, rebalance := 0 }

structure StateInputs where
  impulse_score : ℚ
  impulse_detected : Bool
  exhaustion_detected : Bool
  exhaustion_rt : ℚ
  wick_proxy : ℚ
  structure_confirmed : Bool
  deriving DecidableEq

def rawBuildup (u : StateInputs) : ℚ := max 0 (1 - u.impulse_score)

def rawImpulse (u : StateInputs) : ℚ :=
  min 1 (u.impulse_score + (if u.impulse_detected then 1/5 else 0))

def rawClimax (u : StateInputs) : ℚ :=
  min 1 (u.impulse_score * (4/5) + u.wick_proxy * 50)

def rawExhaustion (u : StateInputs) : ℚ :=
  min 1 ((1 - u.exhaustion_rt) * (4/5) + (if u.exhaustion_detected then 1/5 else 0))

def rawRebalance (u : StateInputs) : ℚ :=
  if u.structure_confirmed then 3/5 else 1/5

/-- `sum(raw.values()) or 1.0`: a zero sum (falsy) is replaced by `1.0`. -/
def rawTotal (u : StateInputs) : ℚ :=
  if rawBuildup u + rawImpulse u + rawClimax u + rawExhaustion u + rawRebalance u = 0 then 1
  else rawBuildup u + rawImpulse u + rawClimax u + rawExhaustion u + rawRebalance u

/-- One `ProbabilisticStateMachine.update` step:
`new = (1 - ema_alpha) * old + ema_alpha * (raw / total)` per state. -/
def psmUpdate (ema_alpha : ℚ) (c : Confidences) (u : StateInputs) : Confidences :=
  { buildup := (1 - ema_alpha) * c.buildup + ema_alpha * (rawBuildup u / rawTotal u),
    impulse := (1 - ema_alpha) * c.impulse + ema_alpha * (rawImpulse u / rawTotal u),
    climax := (1 - ema_alpha) * c.climax + ema_alpha * (rawClimax u / rawTotal u),
    exhaustion := (1 - ema_alpha) * c.exhaustion + ema_alpha * (rawExhaustion u / rawTotal u),
    rebalance := (1 - ema_alpha) * c.rebalance + ema_alpha * (rawRebalance u / rawTotal u) }

def psmRun (ema_alpha : ℚ) (c : Confidences) (ins : List StateInputs) : Confidences :=
  ins.foldl (psmUpdate ema_alpha) c

/-- Inputs with the signs the feature engine actually produces:
`impulse_score ≥ 0`, `wick_proxy ≥ 0`, `exhaustion_ratio ≤ 1`. -/
def GoodInput (u : StateInputs) : Prop :=
  0 ≤ u.impulse_score ∧ 0 ≤ u.wick_proxy ∧ u.exhaustion_rt ≤ 1

def ConfInvariant (c : Confidences) : Prop :=
  0 ≤ c.buildup ∧ c.buildup ≤ 1 ∧ 0 ≤ c.impulse ∧ c.impulse ≤ 1
  ∧ 0 ≤ c.climax ∧ c.climax ≤ 1 ∧ 0 ≤ c.exhaustion ∧ c.exhaustion ≤ 1
  ∧ 0 ≤ c.rebalance ∧ c.rebalance ≤ 1
  ∧ c.buildup + c.impulse + c.climax + c.exhaustion + c.rebalance = 1

/-- A concrete two-step update sequence used to witness the C6 invariant. -/
def sampleInputs : List StateInputs :=
  [{ impulse_score := 1, impulse_detected := true, exhaustion_detected := false,
     exhaustion_rt := 1/2, wick_proxy := 0, structure_confirmed := true },
   { impulse_score := 0, impulse_detected := false, exhaustion_detected := true,
     exhaustion_rt := 1, wick_proxy := 1/100, structure_confirmed := false }]

/-! ### Sequences of risk-state mutations (for the counter invariant) -/

inductive RiskOp
  | tradeOpen (now : ℚ) (symbol : String) (notional : ℚ)
  | tradeClose (now : ℚ) (symbol : String) (pnl_pct released_notional : ℚ)

def applyRiskOp (r : RiskManager) : RiskOp → RiskManager
  | .tradeOpen now s n => r.apply_trade_open now s n
  | .tradeClose now s pnl rel => r.apply_trade_close now s pnl rel

def runRiskOps (r : RiskManager) (ops : List RiskOp) : RiskManager :=
  ops.foldl applyRiskOp r

def NonnegCounters (r : RiskManager) : Prop :=
  0 ≤ r.open_positions
  ∧ (∀ p ∈ r.open_positions_by_symbol, 0 ≤ p.2)
  ∧ (∀ p ∈ r.exposure_by_symbol, 0 ≤ p.2)

/-! ### `danbot/data/tick_features.py` : the `volume_zscore` slice of
`TickFeatureEngine.on_trade`

Only the computation feeding the reported `volume_zscore` is embedded: the
per-symbol 120 s trade window update, `volume_10s`, the twelve 10-second
bucket sums `vols_10s` built by `for i in range(10, 121, 10)`, and
`_robust_zscore`.  The other `FeatureSnapshot` fields do not feed into
`volume_zscore`. -/

structure TradeTick where
  symbol : String
  ts_ms : ℤ
  price : ℚ
  qty : ℚ
  buyer_maker : Bool
  trade_count : ℕ := 1
  spread_bps : ℚ := 0
  deriving DecidableEq

/-- `statistics.median`: sort, take the middle element (odd length) or the
mean of the two middle elements (even length).  Python raises on an empty
list; the engine only calls it on twelve-element lists, the `0` default is
junk. -/
def median (l : List ℚ) : ℚ :=
  if l.length % 2 = 1 then (List.insertionSort (· ≤ ·) l).getD (l.length / 2) 0
  else if l.length = 0 then 0
  else ((List.insertionSort (· ≤ ·) l).getD (l.length / 2 - 1) 0
        + (List.insertionSort (· ≤ ·) l).getD (l.length / 2) 0) / 2

def robust_zscore (value : ℚ) (values : List ℚ) : ℚ :=
  if values.length < 10 then 0
  else
    let med := median values
    let mad := median (values.map (fun v => |v - med|))
    if mad ≤ 1/1000000000 then 0
    else (6745/10000) * (value - med) / mad

/-- The per-symbol trades deque after `on_trade` appends the tick and trims
the left end to the 120 s trailing window. -/
def trimWindow (trades : List TradeTick) (tick : TradeTick) : List TradeTick :=
  (trades ++ [tick]).dropWhile (fun t => decide (t.ts_ms < tick.ts_ms - 120000))

/-- `volume_10s = sum(t.qty for t in recent(10))`. -/
def volume10s (trades : List TradeTick) (tick : TradeTick) : ℚ :=
  ((trades.filter (fun t => decide (tick.ts_ms - 10000 ≤ t.ts_ms))).map TradeTick.qty).sum

/-- One `vols_10s` bucket:
`[t.qty for t in trades if ts - i*1000 <= t.ts_ms < ts - (i-10)*1000]` summed. -/
def bucketSum (trades : List TradeTick) (tick : TradeTick) (i : ℕ) : ℚ :=
  ((trades.filter (fun t =>
      decide (tick.ts_ms - (i : ℤ) * 1000 ≤ t.ts_ms)
        && decide (t.ts_ms < tick.ts_ms - ((i : ℤ) - 10) * 1000))).map TradeTick.qty).sum

/-- `for i in range(10, 121, 10)`: the twelve bucket sums for
`i = 10, 20, ..., 120`, spanning 0–120 s back from the tick. -/
def bucketSums (trades : List TradeTick) (tick : TradeTick) : List ℚ :=
  (List.range 12).map (fun j => bucketSum trades tick (10 * (j + 1)))

/-- The `volume_zscore` slice of `on_trade`: update the window, then z-score
`volume_10s` against the twelve bucket sums.  Returns
(new window, `volume_10s`, `volume_zscore`). -/
def onTradeVolume (trades : List TradeTick) (tick : TradeTick) :
    List TradeTick × ℚ × ℚ :=
  let w := trimWindow trades tick
  let v10 := volume10s w tick
  (w, v10, robust_zscore v10 (bucketSums w tick))

/-- Feed a sequence of ticks through the window-update part of `on_trade`. -/
def runTicks (trades : List TradeTick) (ticks : List TradeTick) : List TradeTick :=
  ticks.foldl (fun w t => (onTradeVolume w t).1) trades

/-- Six historical ticks populating exactly six of the twelve 10-second
buckets behind a final tick at `ts_ms = 200000`. -/
def cxTicks : List TradeTick :=
  [{ symbol := "X", ts_ms := 135000, price := 100, qty := 2, buyer_maker := false },
   { symbol := "X", ts_ms := 145000, price := 100, qty := 2, buyer_maker := false },
   { symbol := "X", ts_ms := 155000, price := 100, qty := 2, buyer_maker := false },
   { symbol := "X", ts_ms := 165000, price := 100, qty := 2, buyer_maker := false },
   { symbol := "X", ts_ms := 175000, price := 100, qty := 2, buyer_maker := false },
   { symbol := "X", ts_ms := 185000, price := 100, qty := 2, buyer_maker := false }]

def cxTick : TradeTick :=
  { symbol := "X", ts_ms := 200000, price := 100, qty := 10, buyer_maker := false }

/-! ### `danbot/strategy/execution.py` : `ExecutionEngine.place_order`

Nondeterministic inputs of the Python code (`datetime.now()`, `uuid.uuid4()`,
`time.time_ns()`, the backoff jitter) are passed in explicitly through
`ExecEnv`; the jitter only affects sleep durations and is dropped.  The
injected async `submit_fn` is modelled as an attempt-indexed
`ℕ → Except String String` (exception message or ack payload).  The
idempotency key f-string
`f"{symbol}:{side.value}:{qty}:{round(price, 8)}"` is modelled as the tuple
of its four components. -/

inductive Side
  | BUY
  | SELL
  deriving DecidableEq

def Side.value : Side → String
  | .BUY => "BUY"
  | .SELL => "SELL"

structure OrderRequest where
  symbol : String
  side : Side
  qty : ℚ
  reduce_only : Bool := false
  deriving DecidableEq

structure SymbolFilters where
  tick_size : ℚ
  step_size : ℚ
  min_notional : ℚ
  deriving DecidableEq

structure TradeTimestamps where
  signal_time : String
  decision_time : String
  send_time : Option String := none
  ack_time : Option String := none
  fill_time : Option String := none
  deriving DecidableEq

inductive OrderStatus
  | FILLED
  | BLOCKED
  | REJECTED
  deriving DecidableEq

abbrev IdemKey := String × String × ℚ × ℚ

/-- The `idempotency_key` field of a `TradeRecord`: the deterministic key
for records stored in the cache, or the `f"blocked:{time.time_ns()}"` nonce
for blocked records. -/
inductive IdemKeyField
  | key (k : IdemKey)
  | blockedNonce (n : ℕ)
  deriving DecidableEq

structure TradeRecord where
  correlation_id : String
  idempotency_key : IdemKeyField
  symbol : String
  side : String
  qty : ℚ
  price : ℚ
  status : OrderStatus
  reason : String
  timestamps : TradeTimestamps
  attempt : Option ℕ := none
  ack : Option String := none
  deriving DecidableEq

/-- Explicit carrier for the impure inputs of one `place_order` call. -/
structure ExecEnv where
  now : ℚ
  decision_time : String
  correlation_id : String
  blocked_nonce : ℕ
  send_time : String
  ack_time : String

/-- `round(price, 8)`.  (Python rounds ties half-to-even, Mathlib's `round`
half-up; the claims touch no exact tie at the 8th decimal.) -/
def roundTo8 (q : ℚ) : ℚ := (round (q * 100000000) : ℤ) / 100000000

/-- The deterministic idempotency key of a call:
(symbol, side.value, quantized qty, quantized price rounded to 8 decimals). -/
def orderKey (order : OrderRequest) (mark_price : ℚ) (filters : SymbolFilters) : IdemKey :=
  (order.symbol, order.side.value, quantize order.qty filters.step_size,
    roundTo8 (quantize mark_price filters.tick_size))

structure ExecutionEngine where
  risk : RiskManager
  slippage : SlippageModel
  retries : ℕ := 3
  retry_base_delay_s : ℚ := 1/5
  max_dedup_entries : ℕ := 2000
  idempotency_cache : List (IdemKey × TradeRecord) := []

/-- `ExecutionEngine._cache`: store under the key, then evict the oldest
entry (FIFO head) once the cache exceeds `max_dedup_entries`. -/
def cacheInsert (maxEntries : ℕ) (cache : List (IdemKey × TradeRecord))
    (key : IdemKey) (record : TradeRecord) : List (IdemKey × TradeRecord) :=
  let c := cache ++ [(key, record)]
  if maxEntries < c.length then c.drop 1 else c

/-- `ExecutionEngine._blocked`. -/
def blockedRecord (env : ExecEnv) (order : OrderRequest) (qty price : ℚ)
    (signal_time reason : String) : TradeRecord :=
  { correlation_id := env.correlation_id,
    idempotency_key := .blockedNonce env.blocked_nonce,
    symbol := order.symbol, side := order.side.value,
    qty := qty, price := price, status := .BLOCKED, reason := reason,
    timestamps := { signal_time := signal_time, decision_time := env.decision_time } }

def filledRecord (env : ExecEnv) (corrId : String) (idemKey : IdemKeyField)
    (order : OrderRequest) (qty price : ℚ) (signal_time : String)
    (attempt : ℕ) (ackPayload : String) : TradeRecord :=
  { correlation_id := corrId, idempotency_key := idemKey,
    symbol := order.symbol, side := order.side.value, qty := qty, price := price,
    status := .FILLED, reason := "ok",
    timestamps := { signal_time := signal_time, decision_time := env.decision_time,
                    send_time := some env.send_time, ack_time := some env.ack_time,
                    fill_time := some env.ack_time },
    attempt := some attempt, ack := some ackPayload }

def rejectedRecord (env : ExecEnv) (corrId : String) (idemKey : IdemKeyField)
    (order : OrderRequest) (qty price : ℚ) (signal_time : String)
    (attempt : ℕ) (e : String) : TradeRecord :=
  { correlation_id := corrId, idempotency_key := idemKey,
    symbol := order.symbol, side := order.side.value, qty := qty, price := price,
    status := .REJECTED, reason := "submit_error:" ++ e,
    timestamps := { signal_time := signal_time, decision_time := env.decision_time,
                    send_time := some env.send_time },
    attempt := some attempt }

/-- The `for attempt in range(self.retries + 1)` submit loop.  `left` is the
number of attempts still allowed after the current one; the last failed
attempt (`attempt >= self.retries`, i.e. `left = 0`) yields REJECTED.  The
second component counts invocations of `submit`. -/
def runAttempts (env : ExecEnv) (corrId : String) (idemKey : IdemKeyField)
    (order : OrderRequest) (qty price : ℚ) (signal_time : String)
    (submit : ℕ → Except String String) : ℕ → ℕ → TradeRecord × ℕ
  | attempt, 0 =>
    match submit attempt with
    | .ok a => (filledRecord env corrId idemKey order qty price signal_time attempt a, 1)
    | .error e => (rejectedRecord env corrId idemKey order qty price signal_time attempt e, 1)
  | attempt, left + 1 =>
    match submit attempt with
    | .ok a => (filledRecord env corrId idemKey order qty price signal_time attempt a, 1)
    | .error _ =>
      let r := runAttempts env corrId idemKey order qty price signal_time submit (attempt + 1) left
      (r.1, r.2 + 1)

/-- `ExecutionEngine.place_order`.  Returns the `TradeRecord`, the engine
after the call (cache and risk state), and the number of `submit`
invocations the call made. -/
def ExecutionEngine.place_order (eng : ExecutionEngine) (env : ExecEnv)
    (order : OrderRequest) (mark_price spread_bps expected_edge_bps volatility impact : ℚ)
    (depth : Option ℚ) (filters : SymbolFilters)
    (submit : ℕ → Except String String) (signal_time_in : Option String := none) :
    TradeRecord × ExecutionEngine × ℕ :=
  let signal_time := signal_time_in.getD env.decision_time
  let normalized_qty := quantize order.qty filters.step_size
  let normalized_price := quantize mark_price filters.tick_size
  let notional := normalized_qty * normalized_price
  let key := orderKey order mark_price filters
  match assocGet eng.idempotency_cache key with
  | some r => (r, eng, 0)
  | none =>
    if notional < filters.min_notional then
      let record := blockedRecord env order normalized_qty normalized_price signal_time "min_notional"
      (record,
        { eng with idempotency_cache := cacheInsert eng.max_dedup_entries eng.idempotency_cache key record },
        0)
    else
      let expected := eng.slippage.expected_slippage_bps normalized_qty spread_bps volatility depth impact
      let sv := eng.slippage.validate expected spread_bps expected_edge_bps
      let ct := eng.risk.can_trade env.now order.symbol notional false
        (decide (eng.slippage.spread_guard_bps < spread_bps)) (!sv.1)
      if !sv.1 || !ct.1 then
        let reason := if !sv.1 then sv.2 else ct.2
        let record := blockedRecord env order normalized_qty normalized_price signal_time reason
        (record,
          { eng with idempotency_cache := cacheInsert eng.max_dedup_entries eng.idempotency_cache key record },
          0)
      else
        let res := runAttempts env env.correlation_id (.key key) order normalized_qty
          normalized_price signal_time submit 0 eng.retries
        let risk2 := if res.1.status = .FILLED
          then eng.risk.apply_trade_open env.now order.symbol notional else eng.risk
        (res.1,
          { eng with
            risk := risk2
            idempotency_cache := cacheInsert eng.max_dedup_entries eng.idempotency_cache key res.1 },
          res.2)

/-! ### `danbot/exchange/adapter.py` : the signed-request retry

`_signed_get` and `_signed_post` are textually identical up to the HTTP verb;
both are embedded by `signed_request` with the underlying client call
abstracted as an attempt-indexed `request` taking the current clock offset.
`sync_time` wraps its own client call and re-raises on failure, so it is
modelled as a fallible `sync`, indexed by the number of sync calls already
made within this request (`0` for the pre-request sync performed when the
stored offset is `0`, the next index for the sync inside the `-1021`
handler); a sync failure propagates and no retry happens.
`_is_time_sync_error` inspects the error payload (substring or parsed JSON)
for the exchange error code `-1021`; the embedding carries the code as a
field. -/

structure RespError where
  code : ℤ
  msg : String
  deriving DecidableEq

def isTimeSyncError (e : RespError) : Bool := decide (e.code = -1021)

inductive AdapterError
  | notConfigured
  | resp (e : RespError)
  deriving DecidableEq

structure AdapterState where
  api_key : String
  api_secret : String
  offset_ms : ℤ
  deriving DecidableEq

/-- The `try/except ClientResponseError` body shared by `_signed_get` and
`_signed_post`: issue the request; on a timestamp-desync error resynchronize
(the sync's own failure propagating with no retry) and retry the request
exactly once.  Returns the outcome, the adapter state after the call, and
the number of `request` invocations made. -/
def signedRequestCore (st1 : AdapterState) (syncIdx : ℕ)
    (sync : ℕ → Except RespError ℤ)
    (request : ℕ → ℤ → Except RespError String) :
    Except AdapterError String × AdapterState × ℕ :=
  match request 0 st1.offset_ms with
  | .ok payload => (.ok payload, st1, 1)
  | .error e =>
    if isTimeSyncError e then
      match sync syncIdx with
      | .error e2 => (.error (.resp e2), st1, 1)
      | .ok off2 =>
        let st2 := { st1 with offset_ms := off2 }
        match request 1 st2.offset_ms with
        | .ok payload => (.ok payload, st2, 2)
        | .error e3 => (.error (.resp e3), st2, 2)
    else (.error (.resp e), st1, 1)

/-- One signed GET/POST: require keys, pre-sync when the stored offset is
`0` (its failure propagating before any request), then run the try-body. -/
def signed_request (st : AdapterState) (sync : ℕ → Except RespError ℤ)
    (request : ℕ → ℤ → Except RespError String) :
    Except AdapterError String × AdapterState × ℕ :=
  if st.api_key = "" ∨ st.api_secret = "" then (.error .notConfigured, st, 0)
  else if st.offset_ms = 0 then
    match sync 0 with
    | .error e => (.error (.resp e), st, 0)
    | .ok off1 => signedRequestCore { st with offset_ms := off1 } 1 sync request
  else signedRequestCore st 0 sync request

/-- A request function that fails once with the timestamp-desync code and
then succeeds, used to witness the retry behaviour. -/
def cxRequest : ℕ → ℤ → Except RespError String :=
  fun n _ => if n = 0 then .error { code := -1021, msg := "ts" } else .ok "pong"

/-- A sync that always succeeds with offset `9`. -/
def cxSyncOk : ℕ → Except RespError ℤ := fun _ => .ok 9

/-- A sync that always fails (e.g. the time endpoint is down). -/
def cxSyncFail : ℕ → Except RespError ℤ := fun _ => .error { code := 500, msg := "down" }

/-- A request that always fails with the timestamp-desync code. -/
def cxRequestTS : ℕ → ℤ → Except RespError String :=
  fun _ _ => .error { code := -1021, msg := "ts" }

/-! ### Concrete fixtures for the execution engine -/

def cxOrder : OrderRequest :=
  { symbol := "BTCUSDT", side := .BUY, qty := 1, reduce_only := false }

def cxFilters : SymbolFilters :=
  { tick_size := 1/100, step_size := 1/1000, min_notional := 5 }

/-- Degenerate filters (zero step/tick, zero min notional): quantization
leaves values unchanged and the min-notional gate never blocks. -/
def cxFilters0 : SymbolFilters :=
  { tick_size := 0, step_size := 0, min_notional := 0 }

def cxEnv : ExecEnv :=
  { now := 0, decision_time := "t0", correlation_id := "c1", blocked_nonce := 1,
    send_time := "t1", ack_time := "t2" }

/-- A later environment (past the 30 s trade cooldown of `cxRisk`). -/
def cxEnv2 : ExecEnv :=
  { now := 100, decision_time := "t3", correlation_id := "c2", blocked_nonce := 2,
    send_time := "t4", ack_time := "t5" }

def cxRisk : RiskManager :=
  { max_daily_loss_pct := 5, max_positions := 10, max_trade_risk_pct := 1,
    max_notional_per_trade := 100, cooldown_seconds := 30, max_positions_per_symbol := 2 }

def cxSlip : SlippageModel :=
  { max_slippage_bps := 10, spread_guard_bps := 5, edge_safety_factor := 2 }

def cxEngine : ExecutionEngine := { risk := cxRisk, slippage := cxSlip }

/-- The same engine configured with a zero-capacity dedup cache. -/
def cxEngine0 : ExecutionEngine :=
  { risk := cxRisk, slippage := cxSlip, max_dedup_entries := 0 }

def cxSubmit : ℕ → Except String String := fun _ => .ok "ack"

/-- A submit that raises on its first attempt and succeeds on the next. -/
def cxSubmitFlaky : ℕ → Except String String :=
  fun n => if n = 0 then .error "boom" else .ok "ack"

/-! ### Helper lemmas -/

theorem mem_assocSet {κ α : Type} [DecidableEq κ] (m : List (κ × α)) (k : κ)
    (v : α) (p : κ × α) (hp : p ∈ assocSet m k v) : p ∈ m ∨ p.2 = v := by
  induction m with
  | nil =>
    simp only [assocSet, List.mem_singleton] at hp
    subst hp; exact Or.inr rfl
  | cons h t ih =>
    simp only [assocSet] at hp
    by_cases hk : h.1 = k
    · rw [if_pos hk] at hp
      rcases List.mem_cons.mp hp with h1 | h1
      · subst h1; exact Or.inr rfl
      · exact Or.inl (List.mem_cons_of_mem _ h1)
    · rw [if_neg hk] at hp
      rcases List.mem_cons.mp hp with h1 | h1
      · subst h1; exact Or.inl (List.mem_cons_self _ _)
      · rcases ih h1 with h2 | h2
        · exact Or.inl (List.mem_cons_of_mem _ h2)
        · exact Or.inr h2

theorem assocSet_forall {κ α : Type} [DecidableEq κ] (P : α → Prop)
    (m : List (κ × α)) (k : κ) (v : α) (hm : ∀ p ∈ m, P p.2) (hv : P v) :
    ∀ p ∈ assocSet m k v, P p.2 := by
  intro p hp
  rcases mem_assocSet m k v p hp with h | h
  · exact hm p h
  · rw [h]; exact hv

theorem assocGetD_forall {κ α : Type} [DecidableEq κ] (P : α → Prop)
    (m : List (κ × α)) (k : κ) (d : α) (hm : ∀ p ∈ m, P p.2) (hd : P d) :
    P (assocGetD m k d) := by
  induction m with
  | nil => exact hd
  | cons h t ih =>
    simp only [assocGetD, assocGet] at *
    by_cases hk : h.1 = k
    · rw [if_pos hk]
      exact hm h (List.mem_cons_self _ _)
    · rw [if_neg hk]
      exact ih (fun p hp => hm p (List.mem_cons_of_mem _ hp))

/-! ### Claim theorems: risk manager -/

/-- C2: `RiskManager.can_trade` evaluates its checks in the fixed order
kill switch, staleness, spread guard, slippage guard, volatility cooldown,
daily loss circuit breaker, consecutive-loss circuit breaker, global max
positions, per-symbol max positions, per-symbol exposure cap, account-wide
exposure cap, per-symbol cooldown, returning `(false, reason)` for the first
failing check; and whenever `loss_today_pct ≥ max_daily_loss_pct` and every
earlier check passes it returns `(false, "daily_loss_circuit_breaker")`
regardless of the remaining parameters. -/
theorem spec_C2_can_trade_order (r : RiskManager) (now : ℚ) (symbol : String)
    (notional : ℚ) (stale spread_blocked slippage_blocked : Bool) :
    r.can_trade now symbol notional stale spread_blocked slippage_blocked
      = firstDeny (canTradeChecks r now symbol notional stale spread_blocked slippage_blocked)
    ∧ (r.kill_switch = false → stale = false → spread_blocked = false →
       slippage_blocked = false → timeBlockActive now r.vol_blocked_until = false →
       r.max_daily_loss_pct ≤ r.loss_today_pct →
       r.can_trade now symbol notional stale spread_blocked slippage_blocked
         = (false, "daily_loss_circuit_breaker")) := by
  constructor
  · rw [canTradeChecks, firstDeny_cons, firstDeny_cons, firstDeny_cons, firstDeny_cons,
      firstDeny_cons, firstDeny_cons, firstDeny_cons, firstDeny_cons, firstDeny_cons,
      firstDeny_cons, firstDeny_cons, firstDeny_cons, firstDeny_nil]
    rfl
  · intro h1 h2 h3 h4 h5 h6
    simp [RiskManager.can_trade, h1, h2, h3, h4, h5, h6]

/-- Witness for C2 at a concrete permissive state with a tripped daily loss. -/
theorem spec_C2_witness :
    ({ max_daily_loss_pct := 5, max_positions := 10, max_trade_risk_pct := 1,
       max_notional_per_trade := 100, cooldown_seconds := 30,
       loss_today_pct := 7 } : RiskManager).can_trade 0 "BTCUSDT" 10 false false false
      = (false, "daily_loss_circuit_breaker") :=
  (spec_C2_can_trade_order
    { max_daily_loss_pct := 5, max_positions := 10, max_trade_risk_pct := 1,
      max_notional_per_trade := 100, cooldown_seconds := 30, loss_today_pct := 7 }
    0 "BTCUSDT" 10 false false false).2 rfl rfl rfl rfl rfl (by norm_num)

/-- C3 counterexample: at `stop_distance_pct = 1/20000` (so that
`stop_distance_pct/100 < 1e-6`) the code's `1e-6` denominator floor makes
`position_size` return half of the spec formula's value, so the claim's
formula does not hold for every input. -/
theorem spec_C3_counterexample :
    ({ max_daily_loss_pct := 5, max_positions := 10, max_trade_risk_pct := 1,
       max_notional_per_trade := 1000000000, cooldown_seconds := 30 } :
        RiskManager).position_size (1/10000) 1 (1/20000) 1 = 1
    ∧ specPositionSize
        { max_daily_loss_pct := 5, max_positions := 10, max_trade_risk_pct := 1,
          max_notional_per_trade := 1000000000, cooldown_seconds := 30 }
        (1/10000) 1 (1/20000) 1 = 2
    ∧ (1 : ℚ) ≠ 2 := by
  refine ⟨?_, ?_, by norm_num⟩
  · unfold RiskManager.position_size
    norm_num
  · unfold specPositionSize
    norm_num

/-- C3 (amended): whenever `stop_distance_pct/100 ≥ 1e-6` (so the code's
denominator floor is inactive), `position_size` equals the spec formula
`min(equity × (max_trade_risk_pct/100) × clamp(confidence,0.1,1.0) /
(stop_distance_pct/100) × clamp(size_multiplier,0.2,1.5),
max_notional_per_trade)`; and the concrete instance
`position_size(10_000, 1.0, 1.0, 1.2)` with `max_trade_risk_pct = 1` and
`max_notional_per_trade = 100` yields exactly `100`. -/
theorem spec_C3_position_size (r : RiskManager)
    (equity confidence stop_distance_pct size_multiplier : ℚ)
    (h : (1/1000000 : ℚ) ≤ stop_distance_pct / 100) :
    r.position_size equity confidence stop_distance_pct size_multiplier
      = specPositionSize r equity confidence stop_distance_pct size_multiplier
    ∧ ({ max_daily_loss_pct := 5, max_positions := 10, max_trade_risk_pct := 1,
         max_notional_per_trade := 100, cooldown_seconds := 30 } :
        RiskManager).position_size 10000 1 1 (12/10) = 100 := by
  constructor
  · unfold RiskManager.position_size specPositionSize
    rw [max_eq_left h]
  · unfold RiskManager.position_size
    norm_num

/-- Witness for C3 at `stop_distance_pct = 2`. -/
theorem spec_C3_witness :
    (1/1000000 : ℚ) ≤ (2 : ℚ) / 100
    ∧ ({ max_daily_loss_pct := 5, max_positions := 10, max_trade_risk_pct := 1,
         max_notional_per_trade := 100, cooldown_seconds := 30 } :
        RiskManager).position_size 500 1 2 1
      = specPositionSize
          { max_daily_loss_pct := 5, max_positions := 10, max_trade_risk_pct := 1,
            max_notional_per_trade := 100, cooldown_seconds := 30 } 500 1 2 1 :=
  ⟨by norm_num,
    (spec_C3_position_size
      { max_daily_loss_pct := 5, max_positions := 10, max_trade_risk_pct := 1,
        max_notional_per_trade := 100, cooldown_seconds := 30 }
      500 1 2 1 (by norm_num)).1⟩

/-- C10: `position_size` is total for every input including
`stop_distance_pct ≤ 0`: the stop-distance denominator is floored at `1e-6`
(hence never zero), and the result never exceeds `max_notional_per_trade`. -/
theorem spec_C10_position_size_total (r : RiskManager)
    (equity confidence stop_distance_pct size_multiplier : ℚ) :
    (1/1000000 : ℚ) ≤ max (stop_distance_pct / 100) (1/1000000)
    ∧ r.position_size equity confidence stop_distance_pct size_multiplier
        ≤ r.max_notional_per_trade :=
  ⟨le_max_right _ _, min_le_right _ _⟩

/-! ### Claim theorems: slippage model and quantization -/

/-- C7: `SlippageModel.validate` reports failures in the fixed order
spread guard, slippage guard, cost-exceeds-edge, and otherwise `(true, "ok")`. -/
theorem spec_C7_validate_order (m : SlippageModel)
    (expected_bps spread_bps expected_edge_bps : ℚ) :
    (m.spread_guard_bps < spread_bps →
      m.validate expected_bps spread_bps expected_edge_bps = (false, "spread_guard"))
    ∧ (spread_bps ≤ m.spread_guard_bps → m.max_slippage_bps < expected_bps →
      m.validate expected_bps spread_bps expected_edge_bps = (false, "slippage_guard"))
    ∧ (spread_bps ≤ m.spread_guard_bps → expected_bps ≤ m.max_slippage_bps →
      expected_edge_bps * m.edge_safety_factor < expected_bps →
      m.validate expected_bps spread_bps expected_edge_bps = (false, "cost_exceeds_edge"))
    ∧ (spread_bps ≤ m.spread_guard_bps → expected_bps ≤ m.max_slippage_bps →
      expected_bps ≤ expected_edge_bps * m.edge_safety_factor →
      m.validate expected_bps spread_bps expected_edge_bps = (true, "ok")) := by
  refine ⟨fun h1 => ?_, fun h1 h2 => ?_, fun h1 h2 h3 => ?_, fun h1 h2 h3 => ?_⟩
  · simp [SlippageModel.validate, h1]
  · simp [SlippageModel.validate, not_lt.mpr h1, h2]
  · simp [SlippageModel.validate, not_lt.mpr h1, not_lt.mpr h2, h3]
  · simp [SlippageModel.validate, not_lt.mpr h1, not_lt.mpr h2, not_lt.mpr h3]

/-- Witness for C7: a concrete rejection with reason `"cost_exceeds_edge"`. -/
theorem spec_C7_witness :
    (SlippageModel.mk 10 5 2).validate 9 3 4 = (false, "cost_exceeds_edge") :=
  (spec_C7_validate_order (SlippageModel.mk 10 5 2) 9 3 4).2.2.1
    (by norm_num) (by norm_num) (by norm_num)

/-- C4 counterexample: `ROUND_DOWN` truncates toward zero, so for a negative
value the quantized result can exceed the value:
`_quantize(-0.125, 0.01) = -0.12 > -0.125`. -/
theorem spec_C4_counterexample :
    quantize (-(1/8)) (1/100) = -(12/100) ∧ (-(1/8) : ℚ) < quantize (-(1/8)) (1/100) := by
  have hc : (⌈-((25:ℚ)/2)⌉ : ℤ) = -12 := Int.ceil_eq_iff.mpr (by constructor <;> norm_num)
  constructor
  · unfold quantize truncTowardZero
    norm_num
    rw [hc]
    norm_num
  · unfold quantize truncTowardZero
    norm_num
    rw [hc]
    norm_num

/-- C4 (amended): for every positive step the result is a whole multiple of
the step; for every nonnegative value it is quantized down (never up), so it
never exceeds the value; and `_quantize(0.123456, 0.01) = 0.12`.  For negative
values the code truncates toward zero, i.e. rounds up. -/
theorem spec_C4_quantize_down :
    (∀ value step : ℚ, 0 < step → ∃ k : ℤ, quantize value step = (k : ℚ) * step)
    ∧ (∀ value step : ℚ, 0 < step → 0 ≤ value → quantize value step ≤ value)
    ∧ quantize (123456/1000000) (1/100) = 12/100 := by
  refine ⟨fun value step hs => ?_, fun value step hs hv => ?_,
    by unfold quantize truncTowardZero; norm_num⟩
  · exact ⟨truncTowardZero (value / step), by rw [quantize, if_neg (not_le.mpr hs)]⟩
  · rw [quantize, if_neg (not_le.mpr hs), truncTowardZero,
      if_pos (div_nonneg hv hs.le)]
    calc ((⌊value / step⌋ : ℚ)) * step
        ≤ (value / step) * step :=
          mul_le_mul_of_nonneg_right (Int.floor_le _) hs.le
      _ = value := div_mul_cancel₀ value (ne_of_gt hs)

/-- Witness for C4 at `value = 5/2`, `step = 1`. -/
theorem spec_C4_witness :
    (0 : ℚ) < 1 ∧ (0 : ℚ) ≤ 5/2 ∧ quantize (5/2) 1 ≤ 5/2 :=
  ⟨by norm_num, by norm_num, (spec_C4_quantize_down).2.1 (5/2) 1 (by norm_num) (by norm_num)⟩

/-! ### Claim theorems: state machine confidence invariant -/

theorem rawBuildup_nonneg (u : StateInputs) : 0 ≤ rawBuildup u :=
  le_max_left 0 _

theorem rawImpulse_nonneg (u : StateInputs) (h : 0 ≤ u.impulse_score) :
    0 ≤ rawImpulse u := by
  unfold rawImpulse
  refine le_min (by norm_num) ?_
  split_ifs <;> linarith

theorem rawClimax_nonneg (u : StateInputs) (h1 : 0 ≤ u.impulse_score)
    (h2 : 0 ≤ u.wick_proxy) : 0 ≤ rawClimax u := by
  unfold rawClimax
  refine le_min (by norm_num) ?_
  have := mul_nonneg h1 (by norm_num : (0:ℚ) ≤ 4/5)
  have := mul_nonneg h2 (by norm_num : (0:ℚ) ≤ 50)
  linarith

theorem rawExhaustion_nonneg (u : StateInputs) (h : u.exhaustion_rt ≤ 1) :
    0 ≤ rawExhaustion u := by
  unfold rawExhaustion
  refine le_min (by norm_num) ?_
  have := mul_nonneg (by linarith : (0:ℚ) ≤ 1 - u.exhaustion_rt) (by norm_num : (0:ℚ) ≤ 4/5)
  split_ifs <;> linarith

theorem rawRebalance_ge (u : StateInputs) : (1:ℚ)/5 ≤ rawRebalance u := by
  unfold rawRebalance
  split_ifs <;> norm_num

theorem rawTotal_eq (u : StateInputs) (h : GoodInput u) :
    0 < rawTotal u
    ∧ rawTotal u = rawBuildup u + rawImpulse u + rawClimax u + rawExhaustion u + rawRebalance u := by
  obtain ⟨h1, h2, h3⟩ := h
  have hB := rawBuildup_nonneg u
  have hI := rawImpulse_nonneg u h1
  have hC := rawClimax_nonneg u h1 h2
  have hE := rawExhaustion_nonneg u h3
  have hR := rawRebalance_ge u
  have ht : 0 < rawBuildup u + rawImpulse u + rawClimax u + rawExhaustion u + rawRebalance u := by
    linarith
  unfold rawTotal
  rw [if_neg (ne_of_gt ht)]
  exact ⟨ht, rfl⟩

theorem psmUpdate_invariant (c : Confidences) (u : StateInputs)
    (hc : ConfInvariant c) (hu : GoodInput u) :
    ConfInvariant (psmUpdate (1/4) c u) := by
  obtain ⟨hu1, hu2, hu3⟩ := hu
  obtain ⟨hb0, hb1, hi0, hi1, hc0, hc1, he0, he1, hr0, hr1, hsum⟩ := hc
  have hB := rawBuildup_nonneg u
  have hI := rawImpulse_nonneg u hu1
  have hC := rawClimax_nonneg u hu1 hu2
  have hE := rawExhaustion_nonneg u hu3
  have hR := rawRebalance_ge u
  obtain ⟨hT, hTeq⟩ := rawTotal_eq u ⟨hu1, hu2, hu3⟩
  have nB0 : 0 ≤ rawBuildup u / rawTotal u := div_nonneg hB hT.le
  have nI0 : 0 ≤ rawImpulse u / rawTotal u := div_nonneg hI hT.le
  have nC0 : 0 ≤ rawClimax u / rawTotal u := div_nonneg hC hT.le
  have nE0 : 0 ≤ rawExhaustion u / rawTotal u := div_nonneg hE hT.le
  have nR0 : 0 ≤ rawRebalance u / rawTotal u := div_nonneg (by linarith) hT.le
  have nB1 : rawBuildup u / rawTotal u ≤ 1 := by rw [div_le_one hT]; linarith
  have nI1 : rawImpulse u / rawTotal u ≤ 1 := by rw [div_le_one hT]; linarith
  have nC1 : rawClimax u / rawTotal u ≤ 1 := by rw [div_le_one hT]; linarith
  have nE1 : rawExhaustion u / rawTotal u ≤ 1 := by rw [div_le_one hT]; linarith
  have nR1 : rawRebalance u / rawTotal u ≤ 1 := by rw [div_le_one hT]; linarith
  have nSum : rawBuildup u / rawTotal u + rawImpulse u / rawTotal u + rawClimax u / rawTotal u
      + rawExhaustion u / rawTotal u + rawRebalance u / rawTotal u = 1 := by
    have hq : rawBuildup u / rawTotal u + rawImpulse u / rawTotal u + rawClimax u / rawTotal u
        + rawExhaustion u / rawTotal u + rawRebalance u / rawTotal u
        = (rawBuildup u + rawImpulse u + rawClimax u + rawExhaustion u + rawRebalance u) / rawTotal u := by
      ring
    rw [hq, ← hTeq, div_self (ne_of_gt hT)]
  unfold ConfInvariant psmUpdate
  refine ⟨?_, ?_, ?_, ?_, ?_, ?_, ?_, ?_, ?_, ?_, ?_⟩ <;> simp only [] <;> linarith

theorem psmRun_invariant (ins : List StateInputs) :
    ∀ c : Confidences, ConfInvariant c → (∀ u ∈ ins, GoodInput u) →
      ConfInvariant (psmRun (1/4) c ins) := by
  induction ins with
  | nil => exact fun c hc _ => hc
  | cons u t ih =>
    intro c hc h
    exact ih _ (psmUpdate_invariant c u hc (h u (List.mem_cons_self _ _)))
      (fun v hv => h v (List.mem_cons_of_mem _ hv))

/-- C6 counterexample: with the arbitrary input `impulse_score = -1` (all
other inputs zero/false), a single `update` from the initial vector drives
the IMPULSE confidence below `0`, so the claimed `[0,1]` invariant fails for
arbitrary update inputs. -/
theorem spec_C6_counterexample :
    (psmUpdate (1/4) initialConfidences
      { impulse_score := -1, impulse_detected := false, exhaustion_detected := false,
        exhaustion_rt := 0, wick_proxy := 0, structure_confirmed := false }).impulse < 0 := by
  simp only [psmUpdate, initialConfidences, rawImpulse, rawTotal, rawBuildup, rawClimax,
    rawExhaustion, rawRebalance]
  norm_num [min_def, max_def]

/-- C6 (amended): starting from the initial vector (BUILDUP = 1, others 0),
every `update` with α = 0.25 normalizes the raw scores by their sum and blends
`new = (1−α)·old + α·normalized`; for every sequence of updates whose inputs
satisfy `impulse_score ≥ 0`, `wick_proxy ≥ 0` and `exhaustion_ratio ≤ 1` (the
signs the feature engine produces), after every update each confidence lies in
`[0,1]` and the vector sums to 1.  For arbitrary (sign-unconstrained) inputs
the raw scores can be negative and the invariant fails. -/
theorem spec_C6_confidence_invariant (ins : List StateInputs)
    (h : ∀ u ∈ ins, GoodInput u) :
    ConfInvariant (psmRun (1/4) initialConfidences ins) :=
  psmRun_invariant ins initialConfidences
    (by unfold ConfInvariant initialConfidences; norm_num) h

/-- Witness for C6 on a concrete two-step update sequence. -/
theorem spec_C6_witness :
    (∀ u ∈ sampleInputs, GoodInput u)
    ∧ ConfInvariant (psmRun (1/4) initialConfidences sampleInputs) := by
  have hg : ∀ u ∈ sampleInputs, GoodInput u := by
    intro u hu
    rcases List.mem_cons.mp hu with h1 | h1
    · subst h1; exact ⟨by norm_num, by norm_num, by norm_num⟩
    · rcases List.mem_cons.mp h1 with h2 | h2
      · subst h2; exact ⟨by norm_num, by norm_num, by norm_num⟩
      · simp at h2
  exact ⟨hg, spec_C6_confidence_invariant _ hg⟩

/-! ### Claim theorems: risk counter invariant -/

theorem applyRiskOp_nonneg (r : RiskManager) (op : RiskOp)
    (h : NonnegCounters r) : NonnegCounters (applyRiskOp r op) := by
  obtain ⟨h1, h2, h3⟩ := h
  cases op with
  | tradeOpen now s n =>
    refine ⟨?_, ?_, ?_⟩
    · show 0 ≤ r.open_positions + 1
      linarith
    · show ∀ p ∈ assocSet r.open_positions_by_symbol s
          (assocGetD r.open_positions_by_symbol s 0 + 1), 0 ≤ p.2
      refine assocSet_forall _ _ _ _ h2 ?_
      have := assocGetD_forall (fun x : ℤ => 0 ≤ x) r.open_positions_by_symbol s 0 h2 le_rfl
      linarith
    · show ∀ p ∈ assocSet r.exposure_by_symbol s
          (assocGetD r.exposure_by_symbol s 0 + max n 0), 0 ≤ p.2
      refine assocSet_forall _ _ _ _ h3 ?_
      have h4 := assocGetD_forall (fun x : ℚ => 0 ≤ x) r.exposure_by_symbol s 0 h3 le_rfl
      have h5 : (0:ℚ) ≤ max n 0 := le_max_right _ _
      linarith
  | tradeClose now s pnl rel =>
    show NonnegCounters (RiskManager.apply_trade_close r now s pnl rel)
    unfold RiskManager.apply_trade_close
    by_cases hp : pnl < 0
    · rw [if_pos hp]
      exact ⟨le_max_left _ _,
        assocSet_forall _ _ _ _ h2 (le_max_left _ _),
        assocSet_forall _ _ _ _ h3 (le_max_left _ _)⟩
    · rw [if_neg hp]
      exact ⟨le_max_left _ _,
        assocSet_forall _ _ _ _ h2 (le_max_left _ _),
        assocSet_forall _ _ _ _ h3 (le_max_left _ _)⟩

/-- C9: across every sequence of `apply_trade_open` / `apply_trade_close`
calls with arbitrary arguments (including negative notionals and released
notionals), every entry of `exposure_by_symbol` and
`open_positions_by_symbol` and the global `open_positions` counter stays
nonnegative. -/
theorem spec_C9_counters_nonneg (r0 : RiskManager) (h : NonnegCounters r0)
    (ops : List RiskOp) : NonnegCounters (runRiskOps r0 ops) := by
  induction ops generalizing r0 with
  | nil => exact h
  | cons op t ih => exact ih (applyRiskOp r0 op) (applyRiskOp_nonneg r0 op h)

/-- Witness for C9: a fresh manager, an open with negative notional and a
close releasing more than was ever opened. -/
theorem spec_C9_witness :
    NonnegCounters (runRiskOps
      { max_daily_loss_pct := 5, max_positions := 10, max_trade_risk_pct := 1,
        max_notional_per_trade := 100, cooldown_seconds := 30 }
      [RiskOp.tradeOpen 0 "BTCUSDT" (-50), RiskOp.tradeClose 1 "BTCUSDT" (-2) 1000,
       RiskOp.tradeClose 2 "ETHUSDT" 3 7]) :=
  spec_C9_counters_nonneg
    { max_daily_loss_pct := 5, max_positions := 10, max_trade_risk_pct := 1,
      max_notional_per_trade := 100, cooldown_seconds := 30 }
    ⟨by norm_num, by simp, by simp⟩
    [RiskOp.tradeOpen 0 "BTCUSDT" (-50), RiskOp.tradeClose 1 "BTCUSDT" (-2) 1000,
     RiskOp.tradeClose 2 "ETHUSDT" 3 7]

/-! ### Claim theorems: volume z-score -/

theorem take_countZero_sorted (s : List ℚ) (hs : s.Sorted (· ≤ ·))
    (hn : ∀ x ∈ s, 0 ≤ x) :
    s.take (s.countP (fun x => decide (x = 0)))
      = List.replicate (s.countP (fun x => decide (x = 0))) 0 := by
  induction s with
  | nil => rfl
  | cons a t ih =>
    obtain ⟨hall, hsort⟩ := List.sorted_cons.mp hs
    have hnt : ∀ x ∈ t, 0 ≤ x := fun x hx => hn x (List.mem_cons_of_mem _ hx)
    by_cases ha : a = 0
    · subst ha
      rw [List.countP_cons]
      simp only [decide_eq_true_eq, eq_self_iff_true, if_true]
      rw [List.take_succ_cons, List.replicate_succ, ih hsort hnt]
    · have ha0 : 0 < a :=
        lt_of_le_of_ne (hn a (List.mem_cons_self _ _)) (Ne.symm ha)
      have hz : t.countP (fun x => decide (x = 0)) = 0 := by
        rw [List.countP_eq_zero]
        intro x hx
        simp only [decide_eq_true_eq]
        intro h0
        have := hall x hx
        rw [h0] at this
        linarith
      rw [List.countP_cons, hz]
      simp [ha]

theorem count_zero_add_filter (l : List ℚ) :
    l.countP (fun x => decide (x = 0)) + (l.filter (fun x => decide (x ≠ 0))).length
      = l.length := by
  induction l with
  | nil => rfl
  | cons a t ih =>
    rw [List.countP_cons, List.filter_cons]
    by_cases ha : a = 0
    · rw [if_pos (by simpa using ha), if_neg (by simpa using ha)]
      simp only [List.length_cons]
      omega
    · rw [if_neg (by simpa using ha), if_pos (by simpa using ha)]
      simp only [List.length_cons]
      omega

theorem getD_zero_of_take_replicate (s : List ℚ) (z i : ℕ)
    (hz : s.take z = List.replicate z 0) (hi : i < z) : s.getD i 0 = 0 := by
  rw [List.getD, List.get?_eq_getElem?]
  rw [← List.getElem?_take_of_lt hi, hz, List.getElem?_replicate, if_pos hi]
  rfl

theorem median_zero_of_few_nonzero (l : List ℚ) (hlen : l.length = 12)
    (hpos : ∀ x ∈ l, 0 ≤ x)
    (hfew : (l.filter (fun x => decide (x ≠ 0))).length ≤ 5) :
    median l = 0 := by
  have hperm : (List.insertionSort (· ≤ ·) l).Perm l := List.perm_insertionSort _ l
  have hsort : (List.insertionSort (· ≤ ·) l).Sorted (· ≤ ·) := List.sorted_insertionSort _ l
  have hslen : (List.insertionSort (· ≤ ·) l).length = 12 := by rw [hperm.length_eq, hlen]
  have hsfilter :
      ((List.insertionSort (· ≤ ·) l).filter (fun x => decide (x ≠ 0))).length ≤ 5 := by
    rw [(hperm.filter _).length_eq]
    exact hfew
  have hge : 7 ≤ (List.insertionSort (· ≤ ·) l).countP (fun x => decide (x = 0)) := by
    have := count_zero_add_filter (List.insertionSort (· ≤ ·) l)
    omega
  have htake := take_countZero_sorted (List.insertionSort (· ≤ ·) l) hsort
    (fun x hx => hpos x (hperm.mem_iff.mp hx))
  have h5 : (List.insertionSort (· ≤ ·) l).getD 5 0 = 0 :=
    getD_zero_of_take_replicate _ _ 5 htake (by omega)
  have h6 : (List.insertionSort (· ≤ ·) l).getD 6 0 = 0 :=
    getD_zero_of_take_replicate _ _ 6 htake (by omega)
  unfold median
  rw [hlen]
  rw [if_neg (by norm_num : ¬(12 % 2 = 1)), if_neg (by norm_num : ¬(12 = 0))]
  have e1 : (12:ℕ)/2 - 1 = 5 := by norm_num
  have e2 : (12:ℕ)/2 = 6 := by norm_num
  rw [e1, e2, h5, h6]
  norm_num

theorem onTradeVolume_fst (w : List TradeTick) (t : TradeTick) :
    (onTradeVolume w t).1 = trimWindow w t := rfl

theorem bucketSums_length (trades : List TradeTick) (tick : TradeTick) :
    (bucketSums trades tick).length = 12 := by
  simp [bucketSums]

theorem bucketSums_nonneg (trades : List TradeTick) (tick : TradeTick)
    (h : ∀ t ∈ trades, 0 ≤ t.qty) : ∀ x ∈ bucketSums trades tick, 0 ≤ x := by
  intro x hx
  simp only [bucketSums, List.mem_map] at hx
  obtain ⟨j, _, rfl⟩ := hx
  unfold bucketSum
  apply List.sum_nonneg
  intro q hq
  simp only [List.mem_map] at hq
  obtain ⟨t, ht, rfl⟩ := hq
  exact h t (List.mem_of_mem_filter ht)

/-- C5 counterexample: after six historical ticks populating exactly six of
the twelve 10-second buckets (fewer than 10), the reported `volume_zscore`
for the next tick is `0.6745 · (10 − 1) / 1 = 6.0705 ≠ 0`, refuting both
"ten buckets spanning 10–120 s" (the code builds twelve spanning 0–120 s)
and "returns 0.0 with fewer than 10 populated buckets". -/
theorem spec_C5_counterexample :
    ((bucketSums (onTradeVolume (runTicks [] cxTicks) cxTick).1 cxTick).filter
        (fun v => decide (v ≠ 0))).length = 6
    ∧ (onTradeVolume (runTicks [] cxTicks) cxTick).2.2 = 12141/2000
    ∧ ((12141 : ℚ)/2000) ≠ 0 := by
  have hrun : runTicks [] cxTicks = cxTicks := by
    simp only [runTicks, cxTicks, List.foldl_cons, List.foldl_nil, onTradeVolume_fst]
    norm_num [trimWindow, List.dropWhile]
  have htrim : trimWindow cxTicks cxTick = cxTicks ++ [cxTick] := by
    norm_num [trimWindow, cxTicks, cxTick, List.dropWhile]
  have hfst : (onTradeVolume (runTicks [] cxTicks) cxTick).1 = cxTicks ++ [cxTick] := by
    rw [onTradeVolume_fst, hrun, htrim]
  have hb1 : bucketSum (cxTicks ++ [cxTick]) cxTick 10 = 0 := by
    norm_num [bucketSum, cxTicks, cxTick, List.filter]
  have hb2 : bucketSum (cxTicks ++ [cxTick]) cxTick 20 = 2 := by
    norm_num [bucketSum, cxTicks, cxTick, List.filter]
  have hb3 : bucketSum (cxTicks ++ [cxTick]) cxTick 30 = 2 := by
    norm_num [bucketSum, cxTicks, cxTick, List.filter]
  have hb4 : bucketSum (cxTicks ++ [cxTick]) cxTick 40 = 2 := by
    norm_num [bucketSum, cxTicks, cxTick, List.filter]
  have hb5 : bucketSum (cxTicks ++ [cxTick]) cxTick 50 = 2 := by
    norm_num [bucketSum, cxTicks, cxTick, List.filter]
  have hb6 : bucketSum (cxTicks ++ [cxTick]) cxTick 60 = 2 := by
    norm_num [bucketSum, cxTicks, cxTick, List.filter]
  have hb7 : bucketSum (cxTicks ++ [cxTick]) cxTick 70 = 2 := by
    norm_num [bucketSum, cxTicks, cxTick, List.filter]
  have hb8 : bucketSum (cxTicks ++ [cxTick]) cxTick 80 = 0 := by
    norm_num [bucketSum, cxTicks, cxTick, List.filter]
  have hb9 : bucketSum (cxTicks ++ [cxTick]) cxTick 90 = 0 := by
    norm_num [bucketSum, cxTicks, cxTick, List.filter]
  have hb10 : bucketSum (cxTicks ++ [cxTick]) cxTick 100 = 0 := by
    norm_num [bucketSum, cxTicks, cxTick, List.filter]
  have hb11 : bucketSum (cxTicks ++ [cxTick]) cxTick 110 = 0 := by
    norm_num [bucketSum, cxTicks, cxTick, List.filter]
  have hb12 : bucketSum (cxTicks ++ [cxTick]) cxTick 120 = 0 := by
    norm_num [bucketSum, cxTicks, cxTick, List.filter]
  have hrange : List.range 12 = [0,1,2,3,4,5,6,7,8,9,10,11] := by rfl
  have hB : bucketSums (cxTicks ++ [cxTick]) cxTick = [0,2,2,2,2,2,2,0,0,0,0,0] := by
    simp only [bucketSums, hrange, List.map_cons, List.map_nil]
    norm_num [hb1, hb2, hb3, hb4, hb5, hb6, hb7, hb8, hb9, hb10, hb11, hb12]
  have hV : volume10s (cxTicks ++ [cxTick]) cxTick = 10 := by
    norm_num [volume10s, cxTicks, cxTick, List.filter]
  have hsort : List.insertionSort (· ≤ ·) [(0:ℚ),2,2,2,2,2,2,0,0,0,0,0]
      = [0,0,0,0,0,0,2,2,2,2,2,2] := by
    norm_num [List.insertionSort, List.orderedInsert]
  have hmed : median [(0:ℚ),2,2,2,2,2,2,0,0,0,0,0] = 1 := by
    norm_num [median, hsort, List.getD]
  have hmap : ([(0:ℚ),2,2,2,2,2,2,0,0,0,0,0]).map (fun v => |v - 1|)
      = [1,1,1,1,1,1,1,1,1,1,1,1] := by
    norm_num [List.map]
  have hs1 : List.insertionSort (· ≤ ·) [(1:ℚ),1,1,1,1,1,1,1,1,1,1,1]
      = [1,1,1,1,1,1,1,1,1,1,1,1] := by
    norm_num [List.insertionSort, List.orderedInsert]
  have hmad : median [(1:ℚ),1,1,1,1,1,1,1,1,1,1,1] = 1 := by
    norm_num [median, hs1, List.getD]
  have hZ : robust_zscore 10 [0,2,2,2,2,2,2,0,0,0,0,0] = 12141/2000 := by
    unfold robust_zscore
    norm_num [hmed, hmap, hmad]
  refine ⟨?_, ?_, by norm_num⟩
  · rw [hfst, hB]
    norm_num [List.filter]
  · show robust_zscore (volume10s (trimWindow (runTicks [] cxTicks) cxTick) cxTick)
      (bucketSums (trimWindow (runTicks [] cxTicks) cxTick) cxTick) = 12141/2000
    rw [hrun, htrim, hV, hB, hZ]

/-- C5 (amended): the reported volume z-score is the robust median/MAD
z-score (factor 0.6745) of `volume_10s` over the **twelve** non-overlapping
10-second buckets spanning **0–120 s** back from the tick (current tick
excluded from every bucket), and it equals 0.0 whenever — quantities being
nonnegative — at most **five** of those buckets are populated (then the
bucket median and MAD are both zero, tripping the `mad ≤ 1e-9` guard);
with six populated buckets a nonzero z-score is already possible. -/
theorem spec_C5_volume_zscore (trades : List TradeTick) (tick : TradeTick)
    (hq : ∀ t ∈ trimWindow trades tick, 0 ≤ t.qty)
    (hfew : ((bucketSums (trimWindow trades tick) tick).filter
        (fun v => decide (v ≠ 0))).length ≤ 5) :
    (onTradeVolume trades tick).2.2
      = robust_zscore (volume10s (trimWindow trades tick) tick)
          (bucketSums (trimWindow trades tick) tick)
    ∧ (onTradeVolume trades tick).2.2 = 0 := by
  refine ⟨rfl, ?_⟩
  show robust_zscore (volume10s (trimWindow trades tick) tick)
    (bucketSums (trimWindow trades tick) tick) = 0
  have hlen := bucketSums_length (trimWindow trades tick) tick
  have hnn := bucketSums_nonneg (trimWindow trades tick) tick hq
  have hmed : median (bucketSums (trimWindow trades tick) tick) = 0 :=
    median_zero_of_few_nonzero _ hlen hnn hfew
  have hmap : (bucketSums (trimWindow trades tick) tick).map
      (fun v => |v - median (bucketSums (trimWindow trades tick) tick)|)
      = (bucketSums (trimWindow trades tick) tick).map (fun v => v) := by
    apply List.map_eq_map_iff.mpr
    intro v hv
    rw [hmed, sub_zero, abs_of_nonneg (hnn v hv)]
  unfold robust_zscore
  rw [hlen]
  norm_num
  rw [hmap, List.map_id', hmed]
  norm_num

/-- Witness for C5: a lone first tick populates no bucket at all, so its
`volume_zscore` is `0`. -/
theorem spec_C5_witness :
    (∀ t ∈ trimWindow [] cxTick, 0 ≤ t.qty)
    ∧ ((bucketSums (trimWindow [] cxTick) cxTick).filter
        (fun v => decide (v ≠ 0))).length ≤ 5
    ∧ (onTradeVolume [] cxTick).2.2 = 0 := by
  have htr : trimWindow [] cxTick = [cxTick] := by
    norm_num [trimWindow, cxTick, List.dropWhile]
  have hq : ∀ t ∈ trimWindow [] cxTick, 0 ≤ t.qty := by
    rw [htr]
    intro t ht
    rw [List.mem_singleton] at ht
    subst ht
    norm_num [cxTick]
  have hfew : ((bucketSums (trimWindow [] cxTick) cxTick).filter
      (fun v => decide (v ≠ 0))).length ≤ 5 := by
    rw [htr]
    have hrange : List.range 12 = [0,1,2,3,4,5,6,7,8,9,10,11] := by rfl
    norm_num [bucketSums, hrange, bucketSum, cxTick, List.filter]
  exact ⟨hq, hfew, (spec_C5_volume_zscore [] cxTick hq hfew).2⟩

/-! ### Claim theorems: adapter clock-skew retry -/

/-- C8 counterexample: with a stored offset of `5`, a request that always
fails with code `-1021` and a `sync_time` that itself fails, the adapter
makes only **one** request invocation (no retry) and surfaces the sync
failure's error, not the result or error of a retry — `sync_time` re-raises
on failure and the `-1021` handler does not guard the resync call, so the
claim's unconditional "resynchronizes and retries exactly once, surfacing
that single retry's outcome" fails on this input. -/
theorem spec_C8_counterexample :
    cxRequestTS 0 (5:ℤ) = .error { code := -1021, msg := "ts" }
    ∧ (signed_request { api_key := "k", api_secret := "s", offset_ms := 5 }
        cxSyncFail cxRequestTS).2.2 = 1
    ∧ (signed_request { api_key := "k", api_secret := "s", offset_ms := 5 }
        cxSyncFail cxRequestTS).1 = .error (.resp { code := 500, msg := "down" }) := by
  refine ⟨rfl, ?_, ?_⟩ <;> rfl

/-- C8 (amended): for every signed GET/POST (the pre-request sync having
succeeded when the stored offset was `0`): a first request that succeeds is
surfaced with one invocation; a first request failing with the exchange
timestamp-desync code `-1021` triggers one resynchronization and, **when
that resync succeeds**, exactly one retry of the same request whose result
or error is surfaced (two invocations in total); when the resync itself
fails, its error propagates with no retry (one invocation); a failure with
any other error code is raised without any retry (one invocation). -/
theorem spec_C8_retry_once (st : AdapterState) (sync : ℕ → Except RespError ℤ)
    (request : ℕ → ℤ → Except RespError String) (off1 : ℤ) (syncIdx : ℕ)
    (hcfg : ¬(st.api_key = "" ∨ st.api_secret = ""))
    (hpre : (st.offset_ms ≠ 0 ∧ off1 = st.offset_ms ∧ syncIdx = 0)
          ∨ (st.offset_ms = 0 ∧ sync 0 = .ok off1 ∧ syncIdx = 1)) :
    (∀ p, request 0 off1 = .ok p →
      signed_request st sync request = (.ok p, { st with offset_ms := off1 }, 1))
    ∧ (∀ e off2, request 0 off1 = .error e → e.code = -1021 → sync syncIdx = .ok off2 →
      (signed_request st sync request).2.2 = 2
      ∧ (signed_request st sync request).2.1.offset_ms = off2
      ∧ (signed_request st sync request).1
          = (match request 1 off2 with
             | .ok p => .ok p
             | .error e3 => .error (.resp e3)))
    ∧ (∀ e e2, request 0 off1 = .error e → e.code = -1021 → sync syncIdx = .error e2 →
      signed_request st sync request = (.error (.resp e2), { st with offset_ms := off1 }, 1))
    ∧ (∀ e, request 0 off1 = .error e → e.code ≠ -1021 →
      signed_request st sync request = (.error (.resp e), { st with offset_ms := off1 }, 1)) := by
  have hred : signed_request st sync request
      = signedRequestCore { st with offset_ms := off1 } syncIdx sync request := by
    rcases hpre with ⟨h0, hoff, hidx⟩ | ⟨h0, hs, hidx⟩
    · subst hoff
      subst hidx
      simp only [signed_request, if_neg hcfg, if_neg h0]
    · subst hidx
      simp only [signed_request, if_neg hcfg, if_pos h0, hs]
  refine ⟨fun p hp => ?_, fun e off2 he hc hs2 => ?_, fun e e2 he hc hs2 => ?_,
    fun e he hc => ?_⟩
  · rw [hred]
    simp only [signedRequestCore, hp]
  · rw [hred]
    simp only [signedRequestCore, he, isTimeSyncError, hc, decide_true_eq_true, if_true, hs2]
    cases hreq : request 1 off2 <;> simp [hreq]
  · rw [hred]
    simp only [signedRequestCore, he, isTimeSyncError, hc, decide_true_eq_true, if_true, hs2]
  · rw [hred]
    simp only [signedRequestCore, he, isTimeSyncError]
    rw [if_neg (by simpa using hc)]

/-- Witness for C8: with a non-zero stored offset, a succeeding sync and
`cxRequest`, the call makes exactly two request invocations, stores the
retry-sync offset, and surfaces the retry's payload. -/
theorem spec_C8_witness :
    (signed_request { api_key := "k", api_secret := "s", offset_ms := 5 }
        cxSyncOk cxRequest).2.2 = 2
    ∧ (signed_request { api_key := "k", api_secret := "s", offset_ms := 5 }
        cxSyncOk cxRequest).2.1.offset_ms = 9
    ∧ (signed_request { api_key := "k", api_secret := "s", offset_ms := 5 }
        cxSyncOk cxRequest).1 = .ok "pong" := by
  have h := (spec_C8_retry_once { api_key := "k", api_secret := "s", offset_ms := 5 }
    cxSyncOk cxRequest 5 0 (by simp) (Or.inl ⟨by norm_num, rfl, rfl⟩)).2.1
    { code := -1021, msg := "ts" } 9 (by rfl) (by norm_num) (by rfl)
  refine ⟨h.1, h.2.1, ?_⟩
  rw [h.2.2]
  rfl

/-! ### Claim theorems: idempotent order placement -/

theorem assocGet_append_single {κ α : Type} [DecidableEq κ] (l : List (κ × α))
    (k : κ) (v : α) (h : assocGet l k = none) :
    assocGet (l ++ [(k, v)]) k = some v := by
  induction l with
  | nil => simp [assocGet]
  | cons p t ih =>
    obtain ⟨a, b⟩ := p
    rw [List.cons_append]
    simp only [assocGet] at h ⊢
    by_cases hp : a = k
    · rw [if_pos hp] at h
      cases h
    · rw [if_neg hp] at h ⊢
      exact ih h

theorem assocGet_cons_none {κ α : Type} [DecidableEq κ] (p : κ × α)
    (t : List (κ × α)) (k : κ) (h : assocGet (p :: t) k = none) :
    assocGet t k = none := by
  obtain ⟨a, b⟩ := p
  simp only [assocGet] at h
  by_cases hp : a = k
  · rw [if_pos hp] at h
    cases h
  · rwa [if_neg hp] at h

theorem assocGet_cacheInsert (maxEntries : ℕ) (cache : List (IdemKey × TradeRecord))
    (key : IdemKey) (record : TradeRecord) (hmax : 1 ≤ maxEntries)
    (hnone : assocGet cache key = none) :
    assocGet (cacheInsert maxEntries cache key record) key = some record := by
  unfold cacheInsert
  by_cases hlen : maxEntries < (cache ++ [(key, record)]).length
  · rw [if_pos hlen]
    cases cache with
    | nil =>
      simp only [List.nil_append, List.length_singleton] at hlen
      omega
    | cons p t =>
      have hdrop : ((p :: t) ++ [(key, record)]).drop 1 = t ++ [(key, record)] := rfl
      rw [hdrop]
      exact assocGet_append_single _ _ _ (assocGet_cons_none p t key hnone)
  · rw [if_neg hlen]
    exact assocGet_append_single _ _ _ hnone

theorem place_order_caches (eng : ExecutionEngine) (env : ExecEnv) (order : OrderRequest)
    (mark_price spread_bps expected_edge_bps volatility impact : ℚ) (depth : Option ℚ)
    (filters : SymbolFilters) (submit : ℕ → Except String String) (sig : Option String)
    (hmax : 1 ≤ eng.max_dedup_entries) :
    assocGet (eng.place_order env order mark_price spread_bps expected_edge_bps volatility
        impact depth filters submit sig).2.1.idempotency_cache
        (orderKey order mark_price filters)
      = some (eng.place_order env order mark_price spread_bps expected_edge_bps volatility
        impact depth filters submit sig).1 := by
  cases hq : assocGet eng.idempotency_cache (orderKey order mark_price filters) with
  | some r =>
    simp only [ExecutionEngine.place_order, hq]
  | none =>
    simp only [ExecutionEngine.place_order, hq]
    split_ifs <;> exact assocGet_cacheInsert _ _ _ _ hmax hq

theorem place_order_hit (eng : ExecutionEngine) (env : ExecEnv) (order : OrderRequest)
    (mark_price spread_bps expected_edge_bps volatility impact : ℚ) (depth : Option ℚ)
    (filters : SymbolFilters) (submit : ℕ → Except String String) (sig : Option String)
    (r : TradeRecord)
    (hhit : assocGet eng.idempotency_cache (orderKey order mark_price filters) = some r) :
    eng.place_order env order mark_price spread_bps expected_edge_bps volatility impact
      depth filters submit sig = (r, eng, 0) := by
  simp only [ExecutionEngine.place_order, hhit]

theorem runAttempts_count_ok (env : ExecEnv) (corrId : String) (idemKey : IdemKeyField)
    (order : OrderRequest) (qty price : ℚ) (signal_time : String)
    (submit : ℕ → Except String String) (a : String) (ha : submit 0 = .ok a) :
    ∀ left, (runAttempts env corrId idemKey order qty price signal_time submit 0 left).2 = 1 := by
  intro left
  cases left <;> simp [runAttempts, ha]

theorem place_order_count_le_one (eng : ExecutionEngine) (env : ExecEnv) (order : OrderRequest)
    (mark_price spread_bps expected_edge_bps volatility impact : ℚ) (depth : Option ℚ)
    (filters : SymbolFilters) (submit : ℕ → Except String String) (sig : Option String)
    (hok : (submit 0).isOk = true) :
    (eng.place_order env order mark_price spread_bps expected_edge_bps volatility impact
      depth filters submit sig).2.2 ≤ 1 := by
  obtain ⟨a, ha⟩ : ∃ a, submit 0 = .ok a := by
    cases hs : submit 0 with
    | ok a => exact ⟨a, rfl⟩
    | error e => rw [hs] at hok; cases hok
  cases hq : assocGet eng.idempotency_cache (orderKey order mark_price filters) with
  | some r =>
    simp only [ExecutionEngine.place_order, hq]
    exact Nat.zero_le _
  | none =>
    simp only [ExecutionEngine.place_order, hq]
    split_ifs <;>
      first
      | exact Nat.zero_le _
      | exact le_of_eq (runAttempts_count_ok env env.correlation_id _ order _ _ _ submit a ha
          eng.retries)

/-- Evaluation lemma for `place_order` at the `cxOrder`/`cxFilters0`
arguments: with an empty-for-this-key cache, `cxSlip` slippage settings and
an admitting risk state, the call reaches the submit loop, whose record,
engine update and invocation count it returns. -/
theorem cx_place_order_run (eng : ExecutionEngine) (env : ExecEnv)
    (submit : ℕ → Except String String) (sig : Option String)
    (hslip : eng.slippage = cxSlip)
    (hcache : assocGet eng.idempotency_cache (orderKey cxOrder 1 cxFilters0) = none)
    (hct : (eng.risk.can_trade env.now cxOrder.symbol 1 false false false).1 = true) :
    eng.place_order env cxOrder 1 0 1 0 0 none cxFilters0 submit sig
      = ((runAttempts env env.correlation_id (.key (orderKey cxOrder 1 cxFilters0)) cxOrder 1 1
            (sig.getD env.decision_time) submit 0 eng.retries).1,
          { eng with
            risk := if (runAttempts env env.correlation_id (.key (orderKey cxOrder 1 cxFilters0))
                  cxOrder 1 1 (sig.getD env.decision_time) submit 0 eng.retries).1.status
                = OrderStatus.FILLED
              then eng.risk.apply_trade_open env.now cxOrder.symbol 1 else eng.risk
            idempotency_cache := cacheInsert eng.max_dedup_entries eng.idempotency_cache
              (orderKey cxOrder 1 cxFilters0)
              (runAttempts env env.correlation_id (.key (orderKey cxOrder 1 cxFilters0)) cxOrder 1 1
                (sig.getD env.decision_time) submit 0 eng.retries).1 },
          (runAttempts env env.correlation_id (.key (orderKey cxOrder 1 cxFilters0)) cxOrder 1 1
            (sig.getD env.decision_time) submit 0 eng.retries).2) := by
  have hq1 : quantize cxOrder.qty cxFilters0.step_size = 1 := by
    norm_num [quantize, cxOrder, cxFilters0]
  have hq2 : quantize (1:ℚ) cxFilters0.tick_size = 1 := by
    norm_num [quantize, cxFilters0]
  have hsv : cxSlip.validate (cxSlip.expected_slippage_bps 1 0 0 none 0) 0 1 = (true, "ok") := by
    norm_num [SlippageModel.validate, SlippageModel.expected_slippage_bps, cxSlip]
  have hsb : decide (cxSlip.spread_guard_bps < (0:ℚ)) = false := by
    norm_num [cxSlip]
  simp only [ExecutionEngine.place_order, hcache, hq1, hq2, hslip, mul_one, hsv, hsb,
    Bool.not_true, Bool.false_or]
  rw [if_neg (by norm_num [cxFilters0] : ¬((1:ℚ) < cxFilters0.min_notional))]
  rw [if_neg (by rw [hct]; norm_num : ¬((!(eng.risk.can_trade env.now cxOrder.symbol 1 false
    false false).1) = true))]

/-- C1 counterexample: two scenarios where identical inputs see the submit
function invoked more than once for the pair.  (a) With a submit that raises
on its first attempt and succeeds on the second, the *first* call alone
already invokes submit twice (the retry loop re-invokes it on any
exception).  (b) With a zero-capacity dedup cache, the just-inserted record
is evicted immediately, so the second call misses the cache and resubmits:
each call invokes submit once, two for the pair. -/
theorem spec_C1_counterexample :
    (cxEngine.place_order cxEnv cxOrder 1 0 1 0 0 none cxFilters0 cxSubmitFlaky none).2.2 = 2
    ∧ (cxEngine0.place_order cxEnv cxOrder 1 0 1 0 0 none cxFilters0 cxSubmit none).2.2
      + ((cxEngine0.place_order cxEnv cxOrder 1 0 1 0 0 none cxFilters0 cxSubmit
          none).2.1.place_order cxEnv2 cxOrder 1 0 1 0 0 none cxFilters0 cxSubmit none).2.2
      = 2 := by
  have hct0 : (cxRisk.can_trade cxEnv.now cxOrder.symbol 1 false false false).1 = true := by
    norm_num [RiskManager.can_trade, cxRisk, cxOrder, cxEnv, timeBlockActive, assocGetD,
      assocGet, sumValues]
  have hct2 : ((cxRisk.apply_trade_open cxEnv.now cxOrder.symbol 1).can_trade cxEnv2.now
      cxOrder.symbol 1 false false false).1 = true := by
    norm_num [RiskManager.apply_trade_open, RiskManager.can_trade, cxRisk, cxOrder, cxEnv,
      cxEnv2, timeBlockActive, assocGetD, assocGet, assocSet, sumValues, max_def]
  have hA := cx_place_order_run cxEngine cxEnv cxSubmitFlaky none rfl rfl hct0
  have hB1 := cx_place_order_run cxEngine0 cxEnv cxSubmit none rfl rfl hct0
  have hB2 := cx_place_order_run
    (cxEngine0.place_order cxEnv cxOrder 1 0 1 0 0 none cxFilters0 cxSubmit none).2.1
    cxEnv2 cxSubmit none (by rw [hB1]; rfl) (by rw [hB1]; rfl) (by rw [hB1]; exact hct2)
  refine ⟨?_, ?_⟩
  · rw [hA]
    rfl
  · rw [hB2, hB1]
    rfl

/-- C1 (amended): for a pair of consecutive `place_order` calls with
identical symbol, side, qty and mark price (hence identical quantized
quantity, quantized price and idempotency key), when the configured dedup
capacity is at least 1 and the first call's submit succeeds on its first
attempt, the second call returns the cached `TradeRecord` of the first —
equal `idempotency_key`, identical `status` — without invoking its submit
function, and submit is invoked at most once for the pair.  (With a
transiently failing submit, the retry loop re-invokes submit within the
first call; with a zero-capacity cache the record is evicted at once and the
second call resubmits.) -/
theorem spec_C1_idempotency (eng : ExecutionEngine) (env1 env2 : ExecEnv)
    (order : OrderRequest) (mark_price spread_bps expected_edge_bps volatility impact : ℚ)
    (depth : Option ℚ) (filters : SymbolFilters)
    (submit1 submit2 : ℕ → Except String String) (sig1 sig2 : Option String)
    (hmax : 1 ≤ eng.max_dedup_entries) (hok : (submit1 0).isOk = true) :
    ((eng.place_order env1 order mark_price spread_bps expected_edge_bps volatility impact
        depth filters submit1 sig1).2.1.place_order env2 order mark_price spread_bps
        expected_edge_bps volatility impact depth filters submit2 sig2).1
      = (eng.place_order env1 order mark_price spread_bps expected_edge_bps volatility impact
        depth filters submit1 sig1).1
    ∧ ((eng.place_order env1 order mark_price spread_bps expected_edge_bps volatility impact
        depth filters submit1 sig1).2.1.place_order env2 order mark_price spread_bps
        expected_edge_bps volatility impact depth filters submit2 sig2).1.idempotency_key
      = (eng.place_order env1 order mark_price spread_bps expected_edge_bps volatility impact
        depth filters submit1 sig1).1.idempotency_key
    ∧ ((eng.place_order env1 order mark_price spread_bps expected_edge_bps volatility impact
        depth filters submit1 sig1).2.1.place_order env2 order mark_price spread_bps
        expected_edge_bps volatility impact depth filters submit2 sig2).1.status
      = (eng.place_order env1 order mark_price spread_bps expected_edge_bps volatility impact
        depth filters submit1 sig1).1.status
    ∧ ((eng.place_order env1 order mark_price spread_bps expected_edge_bps volatility impact
        depth filters submit1 sig1).2.1.place_order env2 order mark_price spread_bps
        expected_edge_bps volatility impact depth filters submit2 sig2).2.2 = 0
    ∧ (eng.place_order env1 order mark_price spread_bps expected_edge_bps volatility impact
        depth filters submit1 sig1).2.2
      + ((eng.place_order env1 order mark_price spread_bps expected_edge_bps volatility impact
        depth filters submit1 sig1).2.1.place_order env2 order mark_price spread_bps
        expected_edge_bps volatility impact depth filters submit2 sig2).2.2 ≤ 1 := by
  have hcache := place_order_caches eng env1 order mark_price spread_bps expected_edge_bps
    volatility impact depth filters submit1 sig1 hmax
  have hhit := place_order_hit
    (eng.place_order env1 order mark_price spread_bps expected_edge_bps volatility impact
      depth filters submit1 sig1).2.1 env2 order mark_price spread_bps expected_edge_bps
    volatility impact depth filters submit2 sig2
    (eng.place_order env1 order mark_price spread_bps expected_edge_bps volatility impact
      depth filters submit1 sig1).1 hcache
  have hcount := place_order_count_le_one eng env1 order mark_price spread_bps
    expected_edge_bps volatility impact depth filters submit1 sig1 hok
  rw [hhit]
  exact ⟨rfl, rfl, rfl, rfl, by simpa using hcount⟩

/-- Witness for C1: a concrete engine, order and always-succeeding submit;
the second call performs no submit invocation. -/
theorem spec_C1_witness :
    1 ≤ cxEngine.max_dedup_entries
    ∧ (cxSubmit 0).isOk = true
    ∧ ((cxEngine.place_order cxEnv cxOrder 100 1 20 0 0 none cxFilters cxSubmit
        none).2.1.place_order cxEnv cxOrder 100 1 20 0 0 none cxFilters cxSubmit none).2.2 = 0 :=
  ⟨by norm_num [cxEngine], rfl,
    (spec_C1_idempotency cxEngine cxEnv cxEnv cxOrder 100 1 20 0 0 none cxFilters
      cxSubmit cxSubmit none none (by norm_num [cxEngine]) rfl).2.2.2.1⟩

end Danbot
